import Mathlib

/-!
Verification of the UEFI boot stub in `src/main.rs` (repository
`yu2ta7ka/wasabi_shakyo`).

The program binds to the firmware system table, locates the Graphics Output
Protocol, reinterprets the framebuffer as a sequence of 32-bit pixels
(length = byte size / 4), fills every pixel with the constant `0xff0000`,
and parks the CPU in an infinite `hlt` loop.  On a non-success status from
the firmware lookup it panics, landing in the panic handler's infinite spin.

The embedding below models:
  - the `repr(C)` layout of the declared firmware structures, so the
    statically asserted offsets/sizes can be computed;
  - byte-addressed memory as `Nat → Nat`, with the 32-bit little-endian
    store performed by each `*e = 0xff0000` pixel write;
  - the firmware's `locate_protocol` call as an oracle returning a status
    and an interface, and `locate_graphic_protocol` / `efi_main` over it;
  - a small-step state machine for the control flow of `efi_main`
    (Start, ProtocolResolved, FramebufferFilled, the hlt loop, the panic
    handler spin, and a never-reached return-to-firmware state).
-/

namespace WasabiShakyo

/-! ## ABI layout model (`repr(C)` on x86-64 UEFI, pointer size 8) -/

/-- Round `off` up to the next multiple of the alignment `a`. -/
def alignUp (off a : Nat) : Nat := (off + a - 1) / a * a

/-- Byte offsets of the fields of a `repr(C)` struct, each field given as
`(size, alignment)`, starting from offset `off`. -/
def fieldOffsets : Nat → List (Nat × Nat) → List Nat
  | _, [] => []
  | off, (sz, al) :: rest =>
      let o := alignUp off al
      o :: fieldOffsets (o + sz) rest

/-- Offset just past the last field of a `repr(C)` struct. -/
def structEnd : Nat → List (Nat × Nat) → Nat
  | off, [] => off
  | off, (sz, al) :: rest => structEnd (alignUp off al + sz) rest

/-- Largest field alignment of a struct (1 when there are no fields). -/
def maxAlign (fs : List (Nat × Nat)) : Nat := fs.foldl (fun m f => max m f.snd) 1

/-- Total size of a `repr(C)` struct: the end offset rounded up to the
struct alignment. -/
def structSize (fs : List (Nat × Nat)) : Nat := alignUp (structEnd 0 fs) (maxAlign fs)

/-- Fields of `EfiBootServicesTable`: `_reserved0 : [u64; 40]` then the
`locate_protocol` function pointer (`extern "win64" fn`, 8 bytes). -/
def efiBootServicesTableFields : List (Nat × Nat) := [(40 * 8, 8), (8, 8)]

/-- Fields of `EfiSystemTable`: `_reserved0 : [u64; 12]` then
`boot_services : &'static EfiBootServicesTable` (a reference, 8 bytes). -/
def efiSystemTableFields : List (Nat × Nat) := [(12 * 8, 8), (8, 8)]

/-- Fields of `EfiGraphicsOutputProtocolPixelInfo`: `version`,
`horizontal_resolution`, `vertical_resolution` (each `u32`),
`_padding0 : [u32; 5]`, `pixels_per_scan_line : u32`. -/
def efiGraphicsOutputProtocolPixelInfoFields : List (Nat × Nat) :=
  [(4, 4), (4, 4), (4, 4), (5 * 4, 4), (4, 4)]

/-! ## Data model -/

/-- The 128-bit capability GUID: `{u32, u16, u16, [u8; 8]}`. -/
structure EfiGuid where
  data0 : Nat
  data1 : Nat
  data2 : Nat
  data3 : List Nat
deriving DecidableEq, Repr

/-- The constant GUID of the Graphics Output Protocol from the source. -/
def EFI_GRAPHICS_OUTPUT_PROTOCOL_GUID : EfiGuid :=
  { data0 := 0x9042a9de
    data1 := 0x23dc
    data2 := 0x4a38
    data3 := [0x96, 0xfb, 0x7a, 0xde, 0xd0, 0x80, 0x51, 0x6a] }

/-- The only success discriminant of `EfiStatus` (`Success = 0`); any other
raw status value is treated as failure by the code. -/
def EFI_SUCCESS : Nat := 0

/-- Layout of `EfiGraphicsOutputProtocolPixelInfo` (payload fields; the
padding words carry no data). -/
structure EfiGraphicsOutputProtocolPixelInfo where
  version : Nat
  horizontal_resolution : Nat
  vertical_resolution : Nat
  pixels_per_scan_line : Nat
deriving DecidableEq, Repr

/-- The display mode descriptor: mode indices, pixel info, and the
framebuffer base address and byte length. -/
structure EfiGraphicsOutputProtocolMode where
  max_mode : Nat
  mode : Nat
  info : EfiGraphicsOutputProtocolPixelInfo
  size_of_info : Nat
  frame_buffer_base : Nat
  frame_buffer_size : Nat
deriving DecidableEq, Repr

/-- The Graphics Output Protocol handle: reserved words plus the mode. -/
structure EfiGraphicsOutputProtocol where
  mode : EfiGraphicsOutputProtocolMode
deriving DecidableEq, Repr

/-- The firmware behaviour visible to this program: the boot-services
`locate_protocol` call, returning a raw status and (when the status is
success) the protocol interface the output pointer refers to. -/
structure Firmware where
  locate_protocol : EfiGuid → Nat × EfiGraphicsOutputProtocol

/-- Status returned by the firmware lookup call made with the Graphics
Output Protocol GUID, as in `locate_graphic_protocol`. -/
def locateStatus (fw : Firmware) : Nat :=
  (fw.locate_protocol EFI_GRAPHICS_OUTPUT_PROTOCOL_GUID).1

/-- Interface produced by the firmware lookup call made with the Graphics
Output Protocol GUID. -/
def locateIface (fw : Firmware) : EfiGraphicsOutputProtocol :=
  (fw.locate_protocol EFI_GRAPHICS_OUTPUT_PROTOCOL_GUID).2

/-! ## Byte-addressed memory and the framebuffer fill -/

/-- Byte-addressed memory: address to byte value. -/
abbrev Mem := Nat → Nat

/-- Byte `k` (little-endian, k = 0 least significant) of the 32-bit value `v`. -/
def byteOf (v k : Nat) : Nat := v / 256 ^ k % 256

/-- Store of the 32-bit value `v` at address `addr`, little-endian (the
x86-64 store performed by assigning through a `&mut u32`): bytes
`addr .. addr+3` become the bytes of `v`, all other bytes are unchanged. -/
def writeU32LE (m : Mem) (addr v : Nat) : Mem := fun a =>
  if addr ≤ a ∧ a < addr + 4 then byteOf v (a - addr) else m a

/-- Little-endian read of a 32-bit value at `addr`. -/
def readU32LE (m : Mem) (addr : Nat) : Nat :=
  m addr + 256 * m (addr + 1) + 65536 * m (addr + 2) + 16777216 * m (addr + 3)

/-- Address of element `i` of the `u32` slice starting at `base`. -/
def pixelAddr (base i : Nat) : Nat := base + 4 * i

/-- The slice built by
`slice::from_raw_parts_mut(vram_addr as *mut u32, vram_byte_size / size_of::<u32>())`,
represented by the addresses of its elements: `byteSize / 4` elements,
element `i` at `base + 4 * i`. -/
def vramSlice (base byteSize : Nat) : List Nat :=
  (List.range (byteSize / 4)).map (pixelAddr base)

/-- Effect on memory of `vram[i] = v`: a 32-bit store at element `i`. -/
def writePixel (m : Mem) (base i v : Nat) : Mem :=
  writeU32LE m (pixelAddr base i) v

/-- Effect of the loop `for e in vram { *e = v }` run over the first `n`
elements: pixels `0, …, n-1` are written in order. -/
def fillWith (m : Mem) (base v : Nat) : Nat → Mem
  | 0 => m
  | n + 1 => writePixel (fillWith m base v n) base n v

/-- The constant the fill loop writes into every pixel (`*e = 0xff0000;`). -/
def fillColor : Nat := 0xff0000

/-- Effect of the whole fill loop of `efi_main` on memory: every element of
the `u32` slice of length `byteSize / 4` is set to `fillColor`. -/
def fillVram (m : Mem) (base byteSize : Nat) : Mem :=
  fillWith m base fillColor (byteSize / 4)

/-! ## The lookup operation and the entry point -/

/-- Outcome of a Rust function returning `Result<T, &'static str>` that may
also panic: `ok`, `err`, or a diverging `panic!` with its static message. -/
inductive RustOutcome (α : Type) where
  | ok (a : α)
  | err (e : String)
  | panicked (msg : String)
deriving DecidableEq, Repr

/-- Check whether an outcome is the `Err` variant of the `Result`. -/
def RustOutcome.isErr {α : Type} : RustOutcome α → Bool
  | .err _ => true
  | _ => false

/-- The body of `locate_graphic_protocol`: call the firmware
`locate_protocol` with the Graphics Output Protocol GUID and a null
registration; on a non-success status `panic!`, otherwise return `Ok` of
the interface written through the output pointer.  (The
`return Err("Failed to locate Graphics Output Protocol")` line in the
source is commented out; the panic is what executes.) -/
def locate_graphic_protocol (fw : Firmware) :
    RustOutcome EfiGraphicsOutputProtocol :=
  let status := locateStatus fw
  if status ≠ EFI_SUCCESS then
    .panicked "Failed to locate Graphics Output Protocol"
  else
    .ok (locateIface fw)

/-- Terminal observable behaviour of `efi_main`: either it enters the
`loop { hlt() }` with the final memory contents, or it diverges in the
panic handler's `loop \x7b\x7d` with memory untouched.  There is no
constructor for returning to firmware: `efi_main` has no such path. -/
inductive MainOutcome where
  | halted (mem : Mem)
  | fatal (mem : Mem)

/-- The body of `efi_main`: locate the protocol and `.unwrap()` it (an
`Err` or a panic inside the callee both end in the panic handler), read
`frame_buffer_base` / `frame_buffer_size` from the mode, build the `u32`
slice of length `frame_buffer_size / 4`, fill it, and halt forever. -/
def efi_main (fw : Firmware) (mem : Mem) : MainOutcome :=
  match locate_graphic_protocol fw with
  | .ok p =>
      let vram_addr := p.mode.frame_buffer_base
      let vram_byte_size := p.mode.frame_buffer_size
      .halted (fillVram mem vram_addr vram_byte_size)
  | .err _ => .fatal mem
  | .panicked _ => .fatal mem

/-! ## Small-step control-flow machine for `efi_main` -/

/-- Control states of the program: the spec's Start → ProtocolResolved →
FramebufferFilled → Halted chain, the panic handler spin, and a
return-to-firmware state that no transition ever produces.  `halting n`
records that the hlt loop has issued `n` `hlt` instructions so far. -/
inductive PState where
  | start
  | protocolResolved (base byteSize : Nat)
  | framebufferFilled
  | halting (hlts : Nat)
  | fatalSpin
  | returnedToFirmware
deriving DecidableEq, Repr

/-- One control step of the program.  From `start`, a success status
resolves the protocol and a failure panics into the fatal spin; the fill
loop runs between `protocolResolved` and `framebufferFilled`; each
iteration of `loop \x7b hlt() \x7d` issues one more `hlt`; the two loops
are self-loops; nothing steps to `returnedToFirmware`. -/
def step (fw : Firmware) : PState → PState
  | .start =>
      if locateStatus fw = EFI_SUCCESS then
        .protocolResolved (locateIface fw).mode.frame_buffer_base
          (locateIface fw).mode.frame_buffer_size
      else
        .fatalSpin
  | .protocolResolved _ _ => .framebufferFilled
  | .framebufferFilled => .halting 0
  | .halting n => .halting (n + 1)
  | .fatalSpin => .fatalSpin
  | .returnedToFirmware => .returnedToFirmware

/-- The control state after `k` steps from program entry. -/
def run (fw : Firmware) (k : Nat) : PState := (step fw)^[k] .start

/-! ## Concrete sample data (used by witnesses and counterexamples) -/

/-- A sample pixel info block. -/
def pixelInfoEx : EfiGraphicsOutputProtocolPixelInfo :=
  { version := 0, horizontal_resolution := 800, vertical_resolution := 600,
    pixels_per_scan_line := 800 }

/-- The mode descriptor of the spec's scenario: base `0x1000`, 16 bytes. -/
def modeEx : EfiGraphicsOutputProtocolMode :=
  { max_mode := 1, mode := 0, info := pixelInfoEx, size_of_info := 36,
    frame_buffer_base := 0x1000, frame_buffer_size := 16 }

/-- The protocol handle around `modeEx`. -/
def protoEx : EfiGraphicsOutputProtocol := { mode := modeEx }

/-- A firmware whose lookup succeeds with `protoEx`. -/
def fwOk : Firmware := { locate_protocol := fun _ => (0, protoEx) }

/-- A firmware whose lookup fails with raw status 21. -/
def fwFail : Firmware := { locate_protocol := fun _ => (21, protoEx) }

/-- A firmware whose lookup succeeds with a 3-byte framebuffer. -/
def fwSmall : Firmware :=
  { locate_protocol := fun _ =>
      (0, { mode := { modeEx with frame_buffer_size := 3 } }) }

/-- The all-zero initial memory used by witnesses. -/
def emptyMem : Mem := fun _ => 0

/-! ## Helper lemmas -/

/-- Pointwise characterisation of the fill loop: inside the written range
a byte holds the corresponding little-endian byte of `v`; outside it the
byte is unchanged. -/
theorem fillWith_apply (m : Mem) (base v n a : Nat) :
    fillWith m base v n a =
      if base ≤ a ∧ a < base + 4 * n then byteOf v ((a - base) % 4) else m a := by
  induction n with
  | zero =>
      simp only [fillWith]
      rw [if_neg]
      omega
  | succ n ih =>
      simp only [fillWith, writePixel, writeU32LE, pixelAddr]
      rw [ih]
      split_ifs <;> first | rfl | omega | (congr 1; omega)

theorem run_succ (fw : Firmware) (k : Nat) :
    run fw (k + 1) = step fw (run fw k) :=
  Function.iterate_succ_apply' (step fw) k .start

theorem run_zero (fw : Firmware) : run fw 0 = .start := rfl

/-- On a failing lookup, every later control state is the fatal spin. -/
theorem run_fail_spin (fw : Firmware) (hf : locateStatus fw ≠ EFI_SUCCESS) :
    ∀ j, run fw (1 + j) = .fatalSpin := by
  intro j
  induction j with
  | zero =>
      rw [run_succ, run_zero]
      simp only [step]
      rw [if_neg hf]
  | succ j ih =>
      have : (1 : Nat) + (j + 1) = (1 + j) + 1 := by omega
      rw [this, run_succ, ih]
      rfl

/-- On a successful lookup, the machine is in the hlt loop from step 3 on,
with one more `hlt` issued each iteration. -/
theorem run_ok_halting (fw : Firmware) (hs : locateStatus fw = EFI_SUCCESS) :
    ∀ j, run fw (3 + j) = .halting j := by
  have h1 : run fw 1 = .protocolResolved (locateIface fw).mode.frame_buffer_base
      (locateIface fw).mode.frame_buffer_size := by
    rw [run_succ, run_zero]
    simp only [step]
    rw [if_pos hs]
  have h2 : run fw 2 = .framebufferFilled := by
    rw [run_succ, h1]
    rfl
  have h3 : run fw 3 = .halting 0 := by
    rw [run_succ, h2]
    rfl
  intro j
  induction j with
  | zero => exact h3
  | succ j ih =>
      have : (3 : Nat) + (j + 1) = (3 + j) + 1 := by omega
      rw [this, run_succ, ih]
      rfl

/-- No control step produces the return-to-firmware state. -/
theorem step_ne_returned (fw : Firmware) (s : PState)
    (h : s ≠ .returnedToFirmware) : step fw s ≠ .returnedToFirmware := by
  cases s with
  | start =>
      simp only [step]
      split <;> intro hc <;> exact PState.noConfusion hc
  | protocolResolved b n => intro hc; exact PState.noConfusion hc
  | framebufferFilled => intro hc; exact PState.noConfusion hc
  | halting n => intro hc; exact PState.noConfusion hc
  | fatalSpin => intro hc; exact PState.noConfusion hc
  | returnedToFirmware => exact absurd rfl h

/-- No reachable control state is the return-to-firmware state. -/
theorem run_ne_returned (fw : Firmware) (k : Nat) :
    run fw k ≠ .returnedToFirmware := by
  induction k with
  | zero => rw [run_zero]; intro hc; exact PState.noConfusion hc
  | succ k ih => rw [run_succ]; exact step_ne_returned fw _ ih

/-- After the fill, each of the four bytes of pixel `i` holds the
corresponding little-endian byte of `fillColor`, so the pixel reads back
as `fillColor`. -/
theorem fillVram_read (m : Mem) (base N i : Nat) (hi : i < N / 4) :
    readU32LE (fillVram m base N) (pixelAddr base i) = fillColor := by
  have hb : ∀ k, k < 4 → fillVram m base N (base + 4 * i + k) = byteOf fillColor k := by
    intro k hk
    unfold fillVram
    rw [fillWith_apply, if_pos (by constructor <;> omega)]
    congr 1
    omega
  have h0 := hb 0 (by omega)
  have h1 := hb 1 (by omega)
  have h2 := hb 2 (by omega)
  have h3 := hb 3 (by omega)
  simp only [Nat.add_zero] at h0
  simp only [readU32LE, pixelAddr]
  rw [h0, h1, h2, h3]
  decide

/-- Bytes outside `[base, base + 4*(N/4))` are untouched by the fill. -/
theorem fillVram_frame (m : Mem) (base N a : Nat)
    (ha : a < base ∨ base + 4 * (N / 4) ≤ a) :
    fillVram m base N a = m a := by
  unfold fillVram
  rw [fillWith_apply, if_neg]
  omega

/-- On a success status `efi_main` halts with the filled framebuffer. -/
theorem efi_main_ok (fw : Firmware) (m : Mem)
    (hs : locateStatus fw = EFI_SUCCESS) :
    efi_main fw m = .halted (fillVram m (locateIface fw).mode.frame_buffer_base
      (locateIface fw).mode.frame_buffer_size) := by
  simp only [efi_main, locate_graphic_protocol]
  rw [if_neg (not_not_intro hs)]

/-- On a non-success status `efi_main` ends in the panic handler with the
memory untouched. -/
theorem efi_main_fail (fw : Firmware) (m : Mem)
    (hf : locateStatus fw ≠ EFI_SUCCESS) :
    efi_main fw m = .fatal m := by
  simp only [efi_main, locate_graphic_protocol]
  rw [if_pos hf]

/-! ## Claims -/

/-- C1: the pixel sequence built from a mode descriptor with
`frame_buffer_base = base` and `frame_buffer_size = N` has exactly `N / 4`
elements, element `i` sits at address `base + 4 * i`, and writing element
`i` modifies exactly the bytes `[base + 4*i, base + 4*i + 4)` (they become
the little-endian bytes of the written value) and no other bytes. -/
theorem pixel_sequence_length_and_write_footprint
    (base N i v : Nat) (m : Mem) (hi : i < N / 4) :
    (vramSlice base N).length = N / 4 ∧
    (vramSlice base N).get? i = some (pixelAddr base i) ∧
    (∀ a, pixelAddr base i ≤ a → a < pixelAddr base i + 4 →
      writePixel m base i v a = byteOf v (a - pixelAddr base i)) ∧
    (∀ a, a < pixelAddr base i ∨ pixelAddr base i + 4 ≤ a →
      writePixel m base i v a = m a) := by
  refine ⟨by simp [vramSlice], ?_, ?_, ?_⟩
  · simp only [vramSlice]
    simp [List.getElem?_range hi]
  · intro a h1 h2
    simp only [writePixel, writeU32LE]
    rw [if_pos ⟨h1, h2⟩]
  · intro a ha
    simp only [writePixel, writeU32LE]
    rw [if_neg]
    omega

/-- C1 witness: base 0, 8 bytes, element 1. -/
theorem pixel_sequence_length_and_write_footprint_w :
    1 < 8 / 4 ∧ (vramSlice 0 8).length = 8 / 4 :=
  ⟨by decide, (pixel_sequence_length_and_write_footprint 0 8 1 5 emptyMem (by decide)).1⟩

/-- C2: after the fill loop every element of the pixel sequence reads back
as the fixed 32-bit value `0xff0000`; in the spec scenario (base `0x1000`,
16 bytes) the sequence has 4 elements, the pixels at byte offsets
0, 4, 8, 12 from `0x1000` all read `0xff0000`, and bytes outside the
16-byte region are untouched. -/
theorem fill_loop_sets_every_pixel (m : Mem) (base N i : Nat) (hi : i < N / 4) :
    readU32LE (fillVram m base N) (pixelAddr base i) = fillColor ∧
    fillColor = 0xff0000 ∧
    (vramSlice 0x1000 16).length = 4 ∧
    (∀ j, j < 4 → readU32LE (fillVram m 0x1000 16) (pixelAddr 0x1000 j) = 0xff0000) ∧
    (∀ a, a < 0x1000 ∨ 0x1000 + 16 ≤ a → fillVram m 0x1000 16 a = m a) := by
  refine ⟨fillVram_read m base N i hi, rfl, by decide, ?_, ?_⟩
  · intro j hj
    rw [fillVram_read m 0x1000 16 j (by omega)]
    rfl
  · intro a ha
    exact fillVram_frame m 0x1000 16 a (by omega)

/-- C2 witness: element 0 of the scenario framebuffer reads `0xff0000`. -/
theorem fill_loop_sets_every_pixel_w :
    0 < 16 / 4 ∧ readU32LE (fillVram emptyMem 0x1000 16) (pixelAddr 0x1000 0) = fillColor :=
  ⟨by decide, (fill_loop_sets_every_pixel emptyMem 0x1000 16 0 (by decide)).1⟩

/-- C3: when the firmware lookup returns a non-success status, `efi_main`
ends in the panic handler with memory untouched by the fill loop, the
control machine is in the fatal spin from step 1 on, and no reachable
control state is the fill-completed state. -/
theorem lookup_failure_reaches_fatal_handler (fw : Firmware) (m : Mem)
    (hf : locateStatus fw ≠ EFI_SUCCESS) :
    efi_main fw m = .fatal m ∧
    (∀ j, run fw (1 + j) = .fatalSpin) ∧
    (∀ k, run fw k ≠ .framebufferFilled) := by
  refine ⟨efi_main_fail fw m hf, run_fail_spin fw hf, ?_⟩
  intro k
  match k with
  | 0 => rw [run_zero]; intro hc; exact PState.noConfusion hc
  | k + 1 =>
      have h : k + 1 = 1 + k := by omega
      rw [h, run_fail_spin fw hf k]
      intro hc; exact PState.noConfusion hc

/-- C3 witness: the failing firmware drives `efi_main` to the fatal state. -/
theorem lookup_failure_reaches_fatal_handler_w :
    locateStatus fwFail ≠ EFI_SUCCESS ∧ efi_main fwFail emptyMem = .fatal emptyMem :=
  ⟨by decide, (lookup_failure_reaches_fatal_handler fwFail emptyMem (by decide)).1⟩

/-- C4 counterexample: at the concrete non-success status 21 the locate
operation does not return the `Err` variant of its `Result` to its caller —
it panics instead. -/
theorem locate_returns_err_cex :
    locateStatus fwFail ≠ EFI_SUCCESS ∧
    (locate_graphic_protocol fwFail).isErr = false ∧
    locate_graphic_protocol fwFail =
      .panicked "Failed to locate Graphics Output Protocol" :=
  ⟨by decide, by decide, by decide⟩

/-- C4 amended: for every non-success status from the firmware lookup
call, the locate operation does not return at all: it panics with the
static message, diverging into the Fatal Handler, and in particular never
hands an `Err` value to the entry point.  (The `return Err(..)` line in
the source is commented out in favour of `panic!`.) -/
theorem locate_failure_panics (fw : Firmware)
    (hf : locateStatus fw ≠ EFI_SUCCESS) :
    locate_graphic_protocol fw =
      .panicked "Failed to locate Graphics Output Protocol" ∧
    (locate_graphic_protocol fw).isErr = false := by
  simp only [locate_graphic_protocol]
  rw [if_pos hf]
  exact ⟨rfl, rfl⟩

/-- C4 witness: the amended claim at the failing firmware. -/
theorem locate_failure_panics_w :
    locateStatus fwFail ≠ EFI_SUCCESS ∧
    locate_graphic_protocol fwFail =
      .panicked "Failed to locate Graphics Output Protocol" :=
  ⟨by decide, (locate_failure_panics fwFail (by decide)).1⟩

/-- C5: the statically asserted layout facts hold for the declared
structures: in `EfiSystemTable` the boot-services reference lies at byte
offset 96 (the field after the 12-word reserved block); in
`EfiBootServicesTable` the `locate_protocol` function pointer lies at byte
offset 320 (the field after the 40-word reserved block); and
`EfiGraphicsOutputProtocolPixelInfo` is exactly 36 bytes in size. -/
theorem static_layout_assertions :
    fieldOffsets 0 efiSystemTableFields = [0, 96] ∧
    fieldOffsets 0 efiBootServicesTableFields = [0, 320] ∧
    structSize efiGraphicsOutputProtocolPixelInfoFields = 36 := by
  decide

/-- C6: when `frame_buffer_size` is not a multiple of 4, every trailing
byte past the last whole pixel (addresses from `base + 4*(N/4)` up to
`base + N`) is left unmodified by the fill. -/
theorem fill_trailing_bytes_unmodified (m : Mem) (base N a : Nat)
    (hN : N % 4 ≠ 0) (h1 : base + 4 * (N / 4) ≤ a) (h2 : a < base + N) :
    fillVram m base N a = m a :=
  fillVram_frame m base N a (Or.inr h1)

/-- C6 witness: a 6-byte framebuffer leaves byte 4 untouched. -/
theorem fill_trailing_bytes_unmodified_w :
    6 % 4 ≠ 0 ∧ fillVram emptyMem 0 6 4 = emptyMem 4 :=
  ⟨by decide, fill_trailing_bytes_unmodified emptyMem 0 6 4 (by decide) (by decide) (by decide)⟩

/-- C7: the fill is idempotent: for every memory, base, color and element
count, running the fill loop twice leaves exactly the memory contents of
running it once — in particular for the program's own fill of a
`N`-byte framebuffer. -/
theorem fill_idempotent (m : Mem) (base v n N a : Nat) :
    fillWith (fillWith m base v n) base v n a = fillWith m base v n a ∧
    fillVram (fillVram m base N) base N a = fillVram m base N a := by
  constructor
  · simp only [fillWith_apply]
    split_ifs <;> rfl
  · unfold fillVram
    simp only [fillWith_apply]
    split_ifs <;> rfl

/-- C8: the entry point never returns control to firmware: no reachable
control state is `returnedToFirmware`; on a success status the machine is
in the hlt loop from step 3 on, issuing one more `hlt` each iteration, and
on a failure status it is in the fatal spin from step 1 on — both loops
are self-loops, so both paths are terminal. -/
theorem entry_point_never_returns (fw : Firmware) (k : Nat) :
    run fw k ≠ .returnedToFirmware ∧
    (locateStatus fw = EFI_SUCCESS → ∀ j, run fw (3 + j) = .halting j) ∧
    (locateStatus fw ≠ EFI_SUCCESS → ∀ j, run fw (1 + j) = .fatalSpin) ∧
    step fw (.halting k) = .halting (k + 1) ∧
    step fw .fatalSpin = .fatalSpin :=
  ⟨run_ne_returned fw k, fun hs => run_ok_halting fw hs, fun hf => run_fail_spin fw hf,
   rfl, rfl⟩

/-- C8 witness: the successful firmware is in the hlt loop at step 3 and
has not returned at step 5. -/
theorem entry_point_never_returns_w :
    locateStatus fwOk = EFI_SUCCESS ∧ run fwOk 3 = .halting 0 ∧
    run fwOk 5 ≠ .returnedToFirmware :=
  ⟨by decide, (entry_point_never_returns fwOk 0).2.1 (by decide) 0,
   (entry_point_never_returns fwOk 5).1⟩

/-- C9: `locate_graphic_protocol` never returns the `Err` variant: on a
success status it returns `Ok` of the located interface and on any other
status it panics, so the `.unwrap()` in `efi_main` can never observe an
`Err` value. -/
theorem locate_never_returns_err (fw : Firmware) :
    (locate_graphic_protocol fw).isErr = false ∧
    (locateStatus fw = EFI_SUCCESS →
      locate_graphic_protocol fw = .ok (locateIface fw)) ∧
    (locateStatus fw ≠ EFI_SUCCESS →
      locate_graphic_protocol fw =
        .panicked "Failed to locate Graphics Output Protocol") := by
  simp only [locate_graphic_protocol]
  by_cases h : locateStatus fw = EFI_SUCCESS
  · rw [if_neg (not_not_intro h)]
    exact ⟨rfl, fun _ => rfl, fun hc => absurd h hc⟩
  · rw [if_pos h]
    exact ⟨rfl, fun hc => absurd hc h, fun _ => rfl⟩

/-- C9 witness: the successful firmware gets `Ok` of its interface. -/
theorem locate_never_returns_err_w :
    locateStatus fwOk = EFI_SUCCESS ∧
    locate_graphic_protocol fwOk = .ok (locateIface fwOk) :=
  ⟨by decide, (locate_never_returns_err fwOk).2.1 (by decide)⟩

/-- C10: with a success status and `frame_buffer_size < 4` (including 0),
the pixel sequence is empty, the fill loop changes no byte of memory, and
the program still proceeds into the hlt loop rather than faulting. -/
theorem small_framebuffer_no_write (fw : Firmware) (m : Mem)
    (hs : locateStatus fw = EFI_SUCCESS)
    (hN : (locateIface fw).mode.frame_buffer_size < 4) :
    vramSlice (locateIface fw).mode.frame_buffer_base
      (locateIface fw).mode.frame_buffer_size = [] ∧
    (∀ a, fillVram m (locateIface fw).mode.frame_buffer_base
      (locateIface fw).mode.frame_buffer_size a = m a) ∧
    efi_main fw m = .halted m ∧
    (∀ j, run fw (3 + j) = .halting j) := by
  have hz : (locateIface fw).mode.frame_buffer_size / 4 = 0 := by omega
  refine ⟨?_, ?_, ?_, run_ok_halting fw hs⟩
  · simp [vramSlice, hz]
  · intro a
    unfold fillVram
    rw [hz]
    rfl
  · rw [efi_main_ok fw m hs]
    show MainOutcome.halted (fillWith m (locateIface fw).mode.frame_buffer_base
      fillColor ((locateIface fw).mode.frame_buffer_size / 4)) = MainOutcome.halted m
    rw [hz]
    rfl

/-- C10 witness: the 3-byte framebuffer firmware yields an empty pixel
sequence and still halts. -/
theorem small_framebuffer_no_write_w :
    locateStatus fwSmall = EFI_SUCCESS ∧
    (locateIface fwSmall).mode.frame_buffer_size < 4 ∧
    vramSlice (locateIface fwSmall).mode.frame_buffer_base
      (locateIface fwSmall).mode.frame_buffer_size = [] :=
  ⟨by decide, by decide,
   (small_framebuffer_no_write fwSmall emptyMem (by decide) (by decide)).1⟩

end WasabiShakyo
